import Mathlib

/-!
Verification of the Google-Drive download client (src/download.py and
src/drive_api_tools.py), as a shallow embedding in Lean 4.

Modelling conventions:
- The remote service is a collaborator.  For pagination it is modelled by the
  sequence of page responses it serves to successive `files().list` calls
  (the stub-server view); for downloads by a function from a file id to the
  delivered byte stream, which either completes or fails mid-transfer.
- The local filesystem is an association list from paths to byte contents;
  `open(path, 'wb')` followed by the chunk loop collapses to one write of the
  bytes that were actually delivered (on failure, the partially delivered
  bytes — possibly none — remain at the path, exactly as in the source, which
  opens the destination before the transfer and never removes it on error).
  A failure of `open` itself (local IOError before the file exists) is not
  modelled; all failures here happen after the destination has been opened.
- Python exceptions are explicit: a call either returns normally (`ret`)
  carrying the spec's `TransferOutcome` classification of its observable
  behaviour, or propagates an exception (`exn`).
- Network activity is counted (`netCalls`), one unit per remote transfer
  invocation, so that "zero network calls" claims are checkable.
- Credentials follow the google-auth semantics the source relies on:
  `creds.valid` is "token present and not expired".  The refresh operation
  and the interactive flow are collaborator inputs of the model.
-/

set_option linter.unusedVariables false

namespace GDrive

/-! ## Data model -/

/-- A remote object as returned in listings: the `files(id, name)` fields. -/
structure DriveFile where
  id : String
  name : String
deriving DecidableEq

/-- One response of the paginated `files().list` call: a batch of files and an
optional continuation token (`nextPageToken`). -/
structure PageResponse where
  files : List DriveFile
  nextPageToken : Option String
deriving DecidableEq

/-! ## Pagination: drive_api_tools.query_metadata

The `while True` loop of `query_metadata` (src/drive_api_tools.py lines 76-91)
issues a request, extends the accumulator with `response.get('files', [])`,
reads `nextPageToken` and stops when it is absent.  The server is modelled by
the list of responses it serves to the successive requests; the function below
is the loop, returning the accumulated files together with the number of
iterations (= requests issued). -/

def query_metadata_loop : List PageResponse → List DriveFile × Nat
  | [] => ([], 0)
  | r :: rs =>
    match r.nextPageToken with
    | none => (r.files, 1)
    | some _ => (r.files ++ (query_metadata_loop rs).1, (query_metadata_loop rs).2 + 1)

/-- drive_api_tools.query_metadata: runs the pagination loop against the
response stream the service serves for this (query, fields) pair. -/
def query_metadata (server : String → String → List PageResponse)
    (query fields : String) : List DriveFile × Nat :=
  query_metadata_loop (server query fields)

/-- The single-quote character, used by the f-string that builds the query. -/
def sq : String := String.mk [Char.ofNat 39]

/-- Download.listdir_cloud_folder (src/download.py lines 63-78): builds the
query string selecting children of the folder, passes fields id, name, and
returns the query result unchanged. -/
def listdir_cloud_folder (server : String → String → List PageResponse)
    (cloud_folder_id : String) : List DriveFile :=
  (query_metadata server (sq ++ cloud_folder_id ++ sq ++ " in parents") "id, name").1

/-- A stub serving of a page split: every page except the last carries a
continuation token, the last does not. -/
def mkResponses : List (List DriveFile) → List PageResponse
  | [] => []
  | [p] => [⟨p, none⟩]
  | p :: q :: ps => ⟨p, some "next"⟩ :: mkResponses (q :: ps)

/-! ## Local filesystem and downloads -/

/-- The local filesystem: paths mapped to byte contents (first match wins). -/
abbrev FS := List (String × List Nat)

/-- os.path.isfile: the path is present. -/
def isfile (fs : FS) (p : String) : Bool := (fs.lookup p).isSome

/-- Create or overwrite the file at `p` with content `c`. -/
def fsWrite (fs : FS) (p : String) (c : List Nat) : FS := (p, c) :: fs

/-- What the remote transfer delivers for a given file id: either the whole
content, or some partially delivered bytes before a failure with a reason. -/
inductive DlResult where
  | ok (content : List Nat)
  | fail (partBytes : List Nat) (reason : String)
deriving DecidableEq

/-- The spec's per-task outcome vocabulary. -/
inductive TransferOutcome where
  | Downloaded
  | SkippedExists
  | Failed (reason : String)
deriving DecidableEq

/-- How a Python call ends: a normal return (classified as an outcome) or an
exception propagating to the caller. -/
inductive CallResult where
  | ret (o : TransferOutcome)
  | exn (e : String)
deriving DecidableEq

structure MetaDlState where
  fs : FS
  err : Option String
  netCalls : Nat
deriving DecidableEq

/-- drive_api_tools.download_metadata (src/drive_api_tools.py lines 154-174):
opens `save_file` for writing, then drains the chunked download.  On success
the file holds the full content; if `next_chunk` raises, the exception
propagates and the file is left holding the partially delivered bytes (the
source never deletes it).  One remote transfer is issued either way. -/
def download_metadata (remote : String → DlResult) (fileId save_file : String)
    (fs : FS) : MetaDlState :=
  match remote fileId with
  | DlResult.ok c => ⟨fsWrite fs save_file c, none, 1⟩
  | DlResult.fail bs reason => ⟨fsWrite fs save_file bs, some reason, 1⟩

structure FileDlState where
  fs : FS
  result : CallResult
  netCalls : Nat
deriving DecidableEq

/-- Download.download_file (src/download.py lines 26-43): if the destination
already exists (os.path.isfile) it only prints and returns — the skip branch,
classified `SkippedExists`, with no network call.  Otherwise it calls
download_metadata; a normal return is the success branch (`Downloaded`), and
an exception from download_metadata propagates uncaught (there is no
try/except in the source). -/
def download_file (remote : String → DlResult) (cloud_file_id save_file : String)
    (fs : FS) : FileDlState :=
  if isfile fs save_file then
    ⟨fs, CallResult.ret TransferOutcome.SkippedExists, 0⟩
  else
    match download_metadata remote cloud_file_id save_file fs with
    | ⟨fs1, none, n⟩ => ⟨fs1, CallResult.ret TransferOutcome.Downloaded, n⟩
    | ⟨fs1, some e, n⟩ => ⟨fs1, CallResult.exn e, n⟩

structure BatchDlState where
  fs : FS
  outcomes : List TransferOutcome
  err : Option String
  netCalls : Nat
deriving DecidableEq

/-- Download.download_files (src/download.py lines 45-61): iterates over the
listing in order, computing `save_file = os.path.join(save_folder, name)` and
calling download_file.  There is no exception handling: if one item's
download_file raises, the loop aborts and the exception propagates
(`err = some e`); `outcomes` collects the per-item results of the items that
completed before that. -/
def download_files (remote : String → DlResult) (files : List DriveFile)
    (save_folder : String) (fs : FS) : BatchDlState :=
  match files with
  | [] => ⟨fs, [], none, 0⟩
  | f :: rest =>
    match download_file remote f.id (save_folder ++ "/" ++ f.name) fs with
    | ⟨fs1, CallResult.ret o, n⟩ =>
      match download_files remote rest save_folder fs1 with
      | ⟨fs2, os, e, m⟩ => ⟨fs2, o :: os, e, n + m⟩
    | ⟨fs1, CallResult.exn e, n⟩ => ⟨fs1, [], some e, n⟩

/-! ## Credentials: drive_api_tools.get_api_service -/

/-- A credential as google-auth sees it: whether an access token is present,
whether it is expired, and whether a refresh token is present. -/
structure Creds where
  hasToken : Bool
  expired : Bool
  hasRefreshToken : Bool
deriving DecidableEq

/-- google-auth `Credentials.valid`: token present and not expired. -/
def Creds.valid (c : Creds) : Bool := c.hasToken && !c.expired

/-- The environment get_api_service runs in: the persisted token file (if it
exists, the credential it deserializes to), the identity provider's refresh
operation, and the result of the interactive authorization flow. -/
structure AuthEnv where
  tokenFile : Option Creds
  refreshOp : Creds → Creds
  flowOp : Creds

/-- Observable result of get_api_service: the credential the service is built
with, how many refresh calls and interactive flows ran, and what (if
anything) was written to the token file. -/
structure AuthResult where
  creds : Creds
  refreshCalls : Nat
  flowCalls : Nat
  written : Option Creds
deriving DecidableEq

/-- drive_api_tools.get_api_service (src/drive_api_tools.py lines 23-46):
load the token file if present; if the credential is missing or not valid,
either refresh (when expired with a refresh token) or run the interactive
flow, and in both of those cases write the resulting credential back to the
token file; a loaded valid credential is used as-is with no write. -/
def get_api_service (env : AuthEnv) : AuthResult :=
  match env.tokenFile with
  | some c =>
    if c.valid then ⟨c, 0, 0, none⟩
    else if c.expired && c.hasRefreshToken then
      ⟨env.refreshOp c, 1, 0, some (env.refreshOp c)⟩
    else
      ⟨env.flowOp, 0, 1, some env.flowOp⟩
  | none => ⟨env.flowOp, 0, 1, some env.flowOp⟩

/-! ## Concrete scenarios used by counterexamples and witnesses -/

/-- A stub remote where the transfer of file a2 fails mid-way. -/
def remoteC2 : String → DlResult := fun i =>
  if i = "a2" then DlResult.fail [] "boom" else DlResult.ok [7]

/-- A three-item listing whose second item is the failing one. -/
def filesC2 : List DriveFile := [⟨"a1", "x.txt"⟩, ⟨"a2", "y.txt"⟩, ⟨"a3", "z.txt"⟩]

/-- A stub remote where every transfer fails before delivering any bytes. -/
def remoteC3 : String → DlResult := fun _ => DlResult.fail [] "network error"

/-- A stub remote where every transfer fails after delivering one byte. -/
def remoteC3w : String → DlResult := fun _ => DlResult.fail [5] "reset"

/-- A stub remote that must not be consulted at all. -/
def remoteC1 : String → DlResult := fun _ => DlResult.fail [] "stub must not be called"

/-- A filesystem already holding the destination file. -/
def fsC1 : FS := [("d/x.txt", [1, 2])]

/-- Two pages of one item each. -/
def pagesC4 : List (List DriveFile) := [[⟨"a1", "x.txt"⟩], [⟨"a2", "y.txt"⟩]]

/-- A stub server serving pagesC4 for every request. -/
def serverC4 : String → String → List PageResponse := fun _ _ => mkResponses pagesC4

/-- Two pages holding two distinct files that share one name. -/
def pagesC7 : List (List DriveFile) := [[⟨"a1", "same.txt"⟩], [⟨"a2", "same.txt"⟩]]

/-- A stub server serving pagesC7 for every request. -/
def serverC7 : String → String → List PageResponse := fun _ _ => mkResponses pagesC7

/-- One tokened response before the terminal one. -/
def frontC8 : List PageResponse := [⟨[⟨"a1", "x.txt"⟩], some "t1"⟩]

/-- The first response carrying no continuation token. -/
def lastC8 : PageResponse := ⟨[⟨"a2", "y.txt"⟩], none⟩

/-- A response the loop must never request. -/
def restC8 : List PageResponse := [⟨[⟨"a3", "z.txt"⟩], some "t2"⟩]

/-- An expired persisted credential that still has a refresh token. -/
def credC5 : Creds := ⟨true, true, true⟩

/-- Environment with credC5 persisted; refreshing clears expiry. -/
def envC5 : AuthEnv :=
  ⟨some credC5, fun c => ⟨true, false, c.hasRefreshToken⟩, ⟨true, false, false⟩⟩

/-- Environment with no persisted token file. -/
def envC6 : AuthEnv := ⟨none, fun c => c, ⟨true, false, true⟩⟩

/-- A persisted credential that is still valid. -/
def credC9 : Creds := ⟨true, false, true⟩

/-- Environment with the valid credC9 persisted. -/
def envC9 : AuthEnv := ⟨some credC9, fun c => c, ⟨true, false, false⟩⟩

/-- A stub remote with distinct contents for ids a1 and a2. -/
def remoteC10 : String → DlResult := fun i =>
  if i = "a1" then DlResult.ok [1, 2] else DlResult.ok [9]

/-! ## Helper lemmas -/

theorem isfile_fsWrite_self (fs : FS) (p : String) (c : List Nat) :
    isfile (fsWrite fs p c) p = true := by
  simp [isfile, fsWrite, List.lookup]

theorem lookup_fsWrite_self (fs : FS) (p : String) (c : List Nat) :
    (fsWrite fs p c).lookup p = some c := by
  simp [fsWrite, List.lookup]

/-- Draining a well-formed page split returns the concatenation of all pages
and makes one request per page. -/
theorem query_metadata_loop_mkResponses (pages : List (List DriveFile))
    (h : pages ≠ []) :
    query_metadata_loop (mkResponses pages) = (pages.flatten, pages.length) := by
  induction pages with
  | nil => exact absurd rfl h
  | cons p ps ih =>
    cases ps with
    | nil => simp [mkResponses, query_metadata_loop]
    | cons q qs =>
      have ihq := ih (by simp)
      simp [mkResponses, query_metadata_loop, ihq]

/-! ## Claim theorems -/

/-- C1: if a regular file already exists at the destination path,
download_file returns the SkippedExists outcome, leaves the filesystem
untouched, and issues zero network calls — download_metadata is never
invoked for that path. -/
theorem C1_skip_if_exists (remote : String → DlResult) (fileId save_file : String)
    (fs : FS) (h : isfile fs save_file = true) :
    download_file remote fileId save_file fs
      = ⟨fs, CallResult.ret TransferOutcome.SkippedExists, 0⟩ := by
  simp [download_file, h]

/-- C1 witness: a filesystem already holding d/x.txt, with a stub remote that
would fail the test if consulted. -/
theorem C1_skip_if_exists_witness :
    isfile fsC1 "d/x.txt" = true ∧
    download_file remoteC1 "a1" "d/x.txt" fsC1
      = ⟨fsC1, CallResult.ret TransferOutcome.SkippedExists, 0⟩ :=
  ⟨by decide, C1_skip_if_exists remoteC1 "a1" "d/x.txt" fsC1 (by decide)⟩

/-- C2 counterexample: in a three-item batch whose second item fails,
download_files does NOT return three outcomes with item 2 marked Failed:
only item 1 yields an outcome, the exception propagates (err = some), and
item 3 is never processed. -/
theorem C2_counterexample :
    (download_files remoteC2 filesC2 "d" []).outcomes = [TransferOutcome.Downloaded] ∧
    (download_files remoteC2 filesC2 "d" []).err = some "boom" ∧
    (download_files remoteC2 filesC2 "d" []).outcomes.length ≠ filesC2.length := by
  decide

/-- C2 (amended): download_file has no exception handling, so one item's
failure aborts the remaining items of download_files: the caller receives one
outcome per item only when no item raised, and on a raised failure the
outcome list covers strictly fewer items than the input listing (exactly the
items completed before the failure). -/
theorem C2_failure_aborts_batch (remote : String → DlResult) (files : List DriveFile)
    (save_folder : String) (fs : FS) :
    ((download_files remote files save_folder fs).err = none →
      (download_files remote files save_folder fs).outcomes.length = files.length) ∧
    ((download_files remote files save_folder fs).err ≠ none →
      (download_files remote files save_folder fs).outcomes.length < files.length) := by
  induction files generalizing fs with
  | nil => simp [download_files]
  | cons f rest ih =>
    rcases hd : download_file remote f.id (save_folder ++ "/" ++ f.name) fs with ⟨fs1, r, n⟩
    cases r with
    | ret o =>
      rcases hb : download_files remote rest save_folder fs1 with ⟨fs2, os, e, m⟩
      have ihb := ih fs1
      rw [hb] at ihb
      have heq : download_files remote (f :: rest) save_folder fs = ⟨fs2, o :: os, e, n + m⟩ := by
        simp [download_files, hd, hb]
      rw [heq]
      refine ⟨fun he => ?_, fun he => ?_⟩
      · have h1 := ihb.1 he
        simp [h1]
      · have h2 := ihb.2 he
        simp at h2 ⊢
        omega
    | exn e =>
      have heq : download_files remote (f :: rest) save_folder fs = ⟨fs1, [], some e, n⟩ := by
        simp [download_files, hd]
      rw [heq]
      refine ⟨fun he => ?_, fun he => ?_⟩
      · simp at he
      · simp

/-- C2 amended witness: the same three-item failing batch, applied to the
amended theorem's abort half. -/
theorem C2_failure_aborts_batch_witness :
    (download_files remoteC2 filesC2 "d" []).err ≠ none ∧
    (download_files remoteC2 filesC2 "d" []).outcomes.length < filesC2.length :=
  ⟨by decide, (C2_failure_aborts_batch remoteC2 filesC2 "d" []).2 (by decide)⟩

/-- C3 counterexample: with no file at the destination and a remote transfer
that fails before delivering any bytes, download_file leaves a file at the
destination (created by opening it for writing) and propagates the exception
instead of returning a Failed outcome. -/
theorem C3_counterexample :
    isfile (download_file remoteC3 "a1" "d/x.txt" []).fs "d/x.txt" = true ∧
    (download_file remoteC3 "a1" "d/x.txt" []).result = CallResult.exn "network error" := by
  decide

/-- C3 (amended): when the remote transfer fails and no file previously
existed at the destination, download_file propagates the exception (it does
not return a Failed outcome) and the destination is left holding the
partially delivered bytes — possibly an empty file — because the source opens
the destination before the transfer and never removes it on failure. -/
theorem C3_failure_leaves_file (remote : String → DlResult) (fileId p : String)
    (fs : FS) (bs : List Nat) (reason : String)
    (h0 : isfile fs p = false) (hr : remote fileId = DlResult.fail bs reason) :
    download_file remote fileId p fs = ⟨fsWrite fs p bs, CallResult.exn reason, 1⟩ ∧
    isfile (download_file remote fileId p fs).fs p = true := by
  have heq : download_file remote fileId p fs = ⟨fsWrite fs p bs, CallResult.exn reason, 1⟩ := by
    simp [download_file, h0, download_metadata, hr]
  exact ⟨heq, by rw [heq]; exact isfile_fsWrite_self fs p bs⟩

/-- C3 amended witness: a remote failing after one byte, an absent
destination. -/
theorem C3_failure_leaves_file_witness :
    isfile [] "d/x.txt" = false ∧ remoteC3w "a1" = DlResult.fail [5] "reset" ∧
    (download_file remoteC3w "a1" "d/x.txt" []
        = ⟨fsWrite [] "d/x.txt" [5], CallResult.exn "reset", 1⟩ ∧
      isfile (download_file remoteC3w "a1" "d/x.txt" []).fs "d/x.txt" = true) :=
  ⟨by decide, by decide,
    C3_failure_leaves_file remoteC3w "a1" "d/x.txt" [] [5] "reset" (by decide) (by decide)⟩

/-- C4: for a response sequence serving the items across K > 1 pages joined
by continuation tokens, query_metadata returns exactly the concatenation of
all pages — no duplicates, no omissions, its length the total number of
served items — following every continuation token before returning. -/
theorem C4_pagination_complete (server : String → String → List PageResponse)
    (query fields : String) (pages : List (List DriveFile))
    (hK : 1 < pages.length)
    (hserve : server query fields = mkResponses pages) :
    (query_metadata server query fields).1 = pages.flatten ∧
    (query_metadata server query fields).1.length = (pages.map List.length).sum := by
  have h := query_metadata_loop_mkResponses pages (by intro hnil; rw [hnil] at hK; simp at hK)
  constructor
  · simp [query_metadata, hserve, h]
  · simp [query_metadata, hserve, h]

/-- C4 witness: two items served across two pages of size one. -/
theorem C4_pagination_complete_witness :
    1 < pagesC4.length ∧ serverC4 "q" "id, name" = mkResponses pagesC4 ∧
    ((query_metadata serverC4 "q" "id, name").1 = pagesC4.flatten ∧
      (query_metadata serverC4 "q" "id, name").1.length = (pagesC4.map List.length).sum) :=
  ⟨by decide, rfl, C4_pagination_complete serverC4 "q" "id, name" pagesC4 (by decide) rfl⟩

/-- C5: a persisted credential that is expired but carries a refresh token
leads get_api_service to exactly one refresh call, no interactive flow, a
write of the refreshed credential to the token file, and the refreshed
credential as result. -/
theorem C5_refresh_path (env : AuthEnv) (c : Creds)
    (hfile : env.tokenFile = some c) (hexp : c.expired = true)
    (href : c.hasRefreshToken = true) :
    get_api_service env = ⟨env.refreshOp c, 1, 0, some (env.refreshOp c)⟩ := by
  simp [get_api_service, hfile, Creds.valid, hexp, href]

/-- C5 witness: the concrete expired-with-refresh-token environment. -/
theorem C5_refresh_path_witness :
    envC5.tokenFile = some credC5 ∧ credC5.expired = true ∧ credC5.hasRefreshToken = true ∧
    get_api_service envC5 = ⟨envC5.refreshOp credC5, 1, 0, some (envC5.refreshOp credC5)⟩ :=
  ⟨rfl, rfl, rfl, C5_refresh_path envC5 credC5 rfl rfl rfl⟩

/-- C6: when the token file is absent, get_api_service runs the interactive
flow exactly once, makes no refresh call, and persists the newly obtained
credential to the token file before returning it. -/
theorem C6_bootstrap_flow (env : AuthEnv) (hfile : env.tokenFile = none) :
    get_api_service env = ⟨env.flowOp, 0, 1, some env.flowOp⟩ := by
  simp [get_api_service, hfile]

/-- C6 witness: the concrete no-token-file environment. -/
theorem C6_bootstrap_flow_witness :
    envC6.tokenFile = none ∧
    get_api_service envC6 = ⟨envC6.flowOp, 0, 1, some envC6.flowOp⟩ :=
  ⟨rfl, C6_bootstrap_flow envC6 rfl⟩

/-- C7: listdir_cloud_folder builds the query selecting children of the
folder id, requests only the fields id and name, forwards to the paginated
query, and returns its result unchanged — the flat concatenation of the
served pages with no filtering, sorting, or deduplication. -/
theorem C7_listdir_forwards_unchanged (server : String → String → List PageResponse)
    (folderId : String) (pages : List (List DriveFile)) (hne : pages ≠ [])
    (hserve : server (sq ++ folderId ++ sq ++ " in parents") "id, name" = mkResponses pages) :
    listdir_cloud_folder server folderId = pages.flatten := by
  have h := query_metadata_loop_mkResponses pages hne
  simp [listdir_cloud_folder, query_metadata, hserve, h]

/-- C7 witness: two distinct items sharing one name are both preserved in the
listing, unmerged. -/
theorem C7_listdir_forwards_unchanged_witness :
    pagesC7 ≠ [] ∧
    serverC7 (sq ++ "F1" ++ sq ++ " in parents") "id, name" = mkResponses pagesC7 ∧
    listdir_cloud_folder serverC7 "F1" = pagesC7.flatten :=
  ⟨by decide, rfl, C7_listdir_forwards_unchanged serverC7 "F1" pagesC7 (by decide) rfl⟩

/-- C8: when the response stream consists of tokened responses followed by a
first token-free response (and arbitrary further responses the loop must not
reach), the pagination loop terminates after exactly one iteration per served
page — front.length + 1 — accumulating exactly the files of the served pages
and stopping at that first token-free response. -/
theorem C8_loop_stops_at_first_absent_token (front : List PageResponse)
    (lastp : PageResponse) (rest : List PageResponse)
    (hfront : ∀ r ∈ front, r.nextPageToken ≠ none)
    (hlast : lastp.nextPageToken = none) :
    query_metadata_loop (front ++ lastp :: rest)
      = (((front ++ [lastp]).map PageResponse.files).flatten, front.length + 1) := by
  induction front with
  | nil => simp [query_metadata_loop, hlast]
  | cons r fr ih =>
    have hr := hfront r (List.mem_cons_self r fr)
    have ihr := ih (fun x hx => hfront x (List.mem_cons_of_mem r hx))
    cases htok : r.nextPageToken with
    | none => exact absurd htok hr
    | some t => simp [query_metadata_loop, htok, ihr]

/-- C8 witness: one tokened page, then the terminal page, then a page the
loop never requests; two iterations, two pages of files. -/
theorem C8_loop_stops_at_first_absent_token_witness :
    (∀ r ∈ frontC8, r.nextPageToken ≠ none) ∧ lastC8.nextPageToken = none ∧
    query_metadata_loop (frontC8 ++ lastC8 :: restC8)
      = (((frontC8 ++ [lastC8]).map PageResponse.files).flatten, frontC8.length + 1) :=
  ⟨by decide, rfl, C8_loop_stops_at_first_absent_token frontC8 lastC8 restC8 (by decide) rfl⟩

/-- C9: a persisted credential that is valid (token present, not expired)
leads get_api_service to no refresh call, no interactive flow, and no write
to the token file: the loaded credential itself is the result, the persisted
file untouched. -/
theorem C9_valid_credential_no_effects (env : AuthEnv) (c : Creds)
    (hfile : env.tokenFile = some c) (hvalid : c.valid = true) :
    get_api_service env = ⟨c, 0, 0, none⟩ := by
  simp [get_api_service, hfile, hvalid]

/-- C9 witness: the concrete valid-credential environment. -/
theorem C9_valid_credential_no_effects_witness :
    envC9.tokenFile = some credC9 ∧ credC9.valid = true ∧
    get_api_service envC9 = ⟨credC9, 0, 0, none⟩ :=
  ⟨rfl, by decide, C9_valid_credential_no_effects envC9 credC9 rfl (by decide)⟩

/-- C10: for a two-item listing whose items share a name (distinct ids) and a
destination where that name is absent, download_files fetches only the first
item — one network call in total: the first download creates the file, the
second item maps to the same path, finds it, and is skipped, so its distinct
remote content is never fetched and the path holds the first item's
content. -/
theorem C10_duplicate_name_shadowing (remote : String → DlResult)
    (id1 id2 nm folder : String) (fs : FS) (c1 : List Nat)
    (h1 : remote id1 = DlResult.ok c1)
    (h2 : isfile fs (folder ++ "/" ++ nm) = false) :
    download_files remote [⟨id1, nm⟩, ⟨id2, nm⟩] folder fs
      = ⟨fsWrite fs (folder ++ "/" ++ nm) c1,
         [TransferOutcome.Downloaded, TransferOutcome.SkippedExists], none, 1⟩ := by
  simp [download_files, download_file, download_metadata, h1, h2, isfile_fsWrite_self]

/-- C10 witness: ids a1 and a2 with distinct contents, both named x.txt. -/
theorem C10_duplicate_name_shadowing_witness :
    remoteC10 "a1" = DlResult.ok [1, 2] ∧ isfile [] ("d" ++ "/" ++ "x.txt") = false ∧
    download_files remoteC10 [⟨"a1", "x.txt"⟩, ⟨"a2", "x.txt"⟩] "d" []
      = ⟨fsWrite [] ("d" ++ "/" ++ "x.txt") [1, 2],
         [TransferOutcome.Downloaded, TransferOutcome.SkippedExists], none, 1⟩ :=
  ⟨by decide, by decide,
    C10_duplicate_name_shadowing remoteC10 "a1" "a2" "x.txt" "d" [] [1, 2]
      (by decide) (by decide)⟩

end GDrive
